import Mathlib

/-!
Verification of the session registry, the CPU-hysteresis activity classifier,
the process-tree operations, and the recent-directory bookkeeping of
src/board.py (Claude Central).

Embedding choices, following the source rather than the specification text:
statuses are the plain strings used by the code ("IDLE", "RUNNING", "DONE",
"FAILED", "KILLED" — the HTTP layer accepts arbitrary strings and the code
never validates them); timestamps are abstract instants (naturals standing for
successive clock readings); CPU percentages are rationals; the task dictionary
is an association list updated in place, matching insertion-ordered dict
assignment; results of external OS queries (signals, pgrep, ps) appear as
explicit inputs to the embedded functions.
-/

namespace Board

/-- One session record, mirroring the dictionary literal built by
create_task (src/board.py lines 163-177).  The cpu field is absent until the
monitor loop first writes it, hence an Option. -/
structure Task where
  id : String
  name : String
  status : String
  shell_pid : Option Nat
  claude_pid : Option Nat
  cwd : Option String
  group : String
  started_at : Nat
  work_started_at : Option Nat
  finished_at : Option Nat
  exit_code : Option Int
  high_count : Nat
  low_count : Nat
  cpu : Option ℚ
  deriving DecidableEq

/-- Request body of POST /task (class TaskCreate, src/board.py lines 141-145). -/
structure TaskCreate where
  id : String
  name : String
  shell_pid : Option Nat
  cwd : Option String
  deriving DecidableEq

/-- Request body of PATCH /task/{task_id} (class TaskUpdate, src/board.py
lines 147-149).  The status is an unvalidated string. -/
structure TaskUpdate where
  status : String
  exit_code : Option Int
  deriving DecidableEq

/-- JSON-ish response of the API handlers: either a plain ok, or
ok=false with an error string. -/
structure ApiResponse where
  ok : Bool
  error : Option String
  deriving DecidableEq

/-- Lookup in an insertion-ordered association list, modelling Python dict
indexing of the tasks map. -/
def lookupA {α : Type} : List (String × α) → String → Option α
  | [], _ => none
  | (k, v) :: rest, key => if k = key then some v else lookupA rest key

/-- Assignment in an insertion-ordered association list, modelling Python dict
assignment: an existing key keeps its position and gets the new value, a new
key is appended. -/
def setA {α : Type} : List (String × α) → String → α → List (String × α)
  | [], key, v => [(key, v)]
  | (k, w) :: rest, key, v =>
      if k = key then (k, v) :: rest else (k, w) :: setA rest key v

/-- The shared mutable state guarded by the lock in src/board.py: the tasks
dict (line 24), the total_sessions counter (line 28) and the _status_flash
dict (line 29). -/
structure BoardState where
  tasks : List (String × Task)
  total_sessions : Nat
  status_flash : List (String × Nat)
  deriving DecidableEq

/-- The state at startup: no tasks, counter zero, no flash stamps. -/
def emptyBoard : BoardState :=
  { tasks := [], total_sessions := 0, status_flash := [] }

/-- POST /task handler (create_task, src/board.py lines 155-182).  groupOf
stands for os.path.basename(os.path.normpath(.)), an external path function
the handler applies when the cwd is non-blank and not "/".  The handler
always replies ok, so only the state is returned.  The recent-directory side
effect lives in track_directory below. -/
def create_task (groupOf : String → String) (st : BoardState) (body : TaskCreate)
    (now : Nat) : BoardState :=
  let group :=
    match body.cwd with
    | some c => if c.trim ≠ "" ∧ c.trim ≠ "/" then groupOf c else "General"
    | none => "General"
  let t : Task :=
    { id := body.id, name := body.name, status := "IDLE",
      shell_pid := body.shell_pid, claude_pid := none, cwd := body.cwd,
      group := group, started_at := now, work_started_at := none,
      finished_at := none, exit_code := none, high_count := 0, low_count := 0,
      cpu := none }
  { tasks := setA st.tasks body.id t,
    total_sessions := st.total_sessions + 1,
    status_flash := setA st.status_flash body.id now }

/-- PATCH /task/{task_id} handler (update_task, src/board.py lines 184-199).
Unknown id: reply not-found, state untouched.  Otherwise status and exit_code
are overwritten unconditionally; work_started_at is stamped on a transition
into RUNNING from a non-RUNNING status; finished_at is stamped when the new
status is DONE or FAILED (and only then — KILLED is absent from line 195);
the flash stamp moves only when the status actually changed. -/
def update_task (st : BoardState) (task_id : String) (body : TaskUpdate)
    (now : Nat) : BoardState × ApiResponse :=
  match lookupA st.tasks task_id with
  | none => (st, { ok := false, error := some "not found" })
  | some t =>
    let old_status := t.status
    let t1 := { t with status := body.status, exit_code := body.exit_code }
    let t2 := if body.status = "RUNNING" ∧ old_status ≠ "RUNNING"
              then { t1 with work_started_at := some now } else t1
    let t3 := if body.status = "DONE" ∨ body.status = "FAILED"
              then { t2 with finished_at := some now } else t2
    let flash := if body.status ≠ old_status then setA st.status_flash task_id now
                 else st.status_flash
    ({ st with tasks := setA st.tasks task_id t3, status_flash := flash },
     { ok := true, error := none })

/-- The registry mutation of the kill path (kill_task_by_index, src/board.py
lines 252-257): under the lock, if the id is still present, mark the task
KILLED, stamp finished_at, and set exit_code to -15. -/
def kill_task_mark (st : BoardState) (tid : String) (now : Nat) : BoardState :=
  match lookupA st.tasks tid with
  | none => st
  | some t =>
    { st with
      tasks := setA st.tasks tid
        { t with status := "KILLED", finished_at := some now,
                 exit_code := some (-15) },
      status_flash := setA st.status_flash tid now }

/-- kill_task_by_index (src/board.py lines 235-257) minus the process-tree
signalling, which touches no registry state: out-of-range indices and
non-IDLE/RUNNING selections return the state unchanged. -/
def kill_task_by_index (st : BoardState) (visible : List Task) (idx : Nat)
    (now : Nat) : BoardState :=
  match visible[idx]? with
  | none => st
  | some t =>
    if t.status = "IDLE" ∨ t.status = "RUNNING" then kill_task_mark st t.id now
    else st

/-- Outcome of the no-op signal os.kill(pid, 0) issued by pid_alive
(src/board.py line 209).  processLookupError means the OS reported no such
process; permissionDenied means the process exists but signalling it is not
permitted (PermissionError, a subclass of OSError in Python). -/
inductive SignalCheck where
  | ok
  | processLookupError
  | permissionDenied
  deriving DecidableEq

/-- pid_alive (src/board.py lines 206-212): returns true when the signal
succeeds; the except clause catches OSError and ProcessLookupError together,
and PermissionError is an OSError, so every failure — including
permission-denied against an existing process — returns false. -/
def pid_alive (r : SignalCheck) : Bool :=
  match r with
  | .ok => true
  | .processLookupError => false
  | .permissionDenied => false

/-- Summing pass of get_cpu_usage (src/board.py lines 363-390): each entry of
samples is the result of one "ps -o %cpu= -p PID" query over the claude pid
and its pgrep-reported children — some c on success, none when the query
errors, times out, or prints nothing.  A failed query is skipped, so it
contributes 0 to the returned total; when every query fails the function
returns 0.0 exactly as if the process tree were idle. -/
def get_cpu_usage (samples : List (Option ℚ)) : ℚ :=
  samples.foldl
    (fun total s =>
      match s with
      | some c => total + c
      | none => total) 0

/-- Streak update of the monitor loop (src/board.py lines 441-447): store the
sample, then a sample strictly above 5 increments high_count and zeroes
low_count, any other sample increments low_count and zeroes high_count. -/
def bump_streaks (t : Task) (cpu : ℚ) : Task :=
  if 5 < cpu then
    { t with cpu := some cpu, high_count := t.high_count + 1, low_count := 0 }
  else
    { t with cpu := some cpu, low_count := t.low_count + 1, high_count := 0 }

/-- Transition step of the monitor loop (src/board.py lines 449-455): at a
high streak of 2 or more a non-RUNNING task becomes RUNNING and
work_started_at is stamped; otherwise, at a low streak of 2 or more a
non-IDLE task becomes IDLE. -/
def flip_status (t : Task) (now : Nat) : Task :=
  if 2 ≤ t.high_count ∧ t.status ≠ "RUNNING" then
    { t with status := "RUNNING", work_started_at := some now }
  else if 2 ≤ t.low_count ∧ t.status ≠ "IDLE" then
    { t with status := "IDLE" }
  else t

/-- One classifier tick for one task with its aggregate CPU sample: the body
of the with-lock block at src/board.py lines 437-455. -/
def classifier_step (t : Task) (cpu : ℚ) (now : Nat) : Task :=
  flip_status (bump_streaks t cpu) now

/-- A sequence of classifier ticks over a list of CPU samples. -/
def classifier_run (t : Task) (l : List ℚ) (now : Nat) : Task :=
  l.foldl (fun s c => classifier_step s c now) t

/-- RECENT_DIRS_MAX (src/board.py line 40). -/
def RECENT_DIRS_MAX : Nat := 5

/-- track_directory (src/board.py lines 64-74).  norm stands for
os.path.normpath.  Blank input returns the list unchanged; otherwise the
normalized path is removed if present, reinserted at the front, and the list
is truncated to RECENT_DIRS_MAX entries. -/
def track_directory (norm : String → String) (cwd : String)
    (dirs : List String) : List String :=
  if cwd.trim = "" then dirs
  else ((norm cwd) :: dirs.erase (norm cwd)).take RECENT_DIRS_MAX

/-- A process tree: a root pid and the trees of its direct children, as
reported by the recursive pgrep -P walk of kill_process_tree. -/
inductive PTree where
  | node (pid : Nat) (children : List PTree)

/-- Root pid of a process tree. -/
def PTree.rootPid : PTree → Nat
  | .node p _ => p

mutual

/-- Number of processes in a tree: the root plus all descendants. -/
def PTree.size : PTree → Nat
  | .node _ cs => 1 + PTree.sizeList cs

/-- Total number of processes in a list of trees. -/
def PTree.sizeList : List PTree → Nat
  | [] => 0
  | c :: cs => PTree.size c + PTree.sizeList cs

end

mutual

/-- kill_process_tree (src/board.py lines 214-232): first recurse into every
pgrep-reported child, then signal the pid itself with SIGTERM.  fail tells
whether the SIGTERM attempt at a given pid raises; the try/except swallows
that outcome, so it is only recorded in the trace of (pid, attempt failed)
pairs and never alters the control flow. -/
def kill_process_tree (fail : Nat → Bool) : PTree → List (Nat × Bool)
  | .node pid cs => kill_children fail cs ++ [(pid, fail pid)]

/-- The child loop of kill_process_tree (src/board.py lines 222-228): each
child is processed in pgrep order, a child's whole subtree before the next
child. -/
def kill_children (fail : Nat → Bool) : List PTree → List (Nat × Bool)
  | [] => []
  | c :: cs => kill_process_tree fail c ++ kill_children fail cs

end

mutual

/-- Preorder listing of the pids of a process tree. -/
def PTree.pids : PTree → List Nat
  | .node p cs => p :: PTree.pidsList cs

/-- Preorder listing of the pids of a list of process trees. -/
def PTree.pidsList : List PTree → List Nat
  | [] => []
  | c :: cs => PTree.pids c ++ PTree.pidsList cs

end

theorem lookupA_setA_self {α : Type} (l : List (String × α)) (k : String) (v : α) :
    lookupA (setA l k v) k = some v := by
  induction l with
  | nil => simp [setA, lookupA]
  | cons p rest ih =>
    obtain ⟨k0, w⟩ := p
    by_cases h : k0 = k
    · simp [setA, h, lookupA]
    · simp [setA, h, lookupA, ih]

theorem bump_streaks_status (t : Task) (c : ℚ) :
    (bump_streaks t c).status = t.status := by
  by_cases h : 5 < c <;> simp [bump_streaks, h]

theorem bump_streaks_work_started_at (t : Task) (c : ℚ) :
    (bump_streaks t c).work_started_at = t.work_started_at := by
  by_cases h : 5 < c <;> simp [bump_streaks, h]

theorem bump_streaks_high_count (t : Task) (c : ℚ) :
    (bump_streaks t c).high_count = if 5 < c then t.high_count + 1 else 0 := by
  by_cases h : 5 < c <;> simp [bump_streaks, h]

theorem bump_streaks_low_count (t : Task) (c : ℚ) :
    (bump_streaks t c).low_count = if 5 < c then 0 else t.low_count + 1 := by
  by_cases h : 5 < c <;> simp [bump_streaks, h]

theorem flip_status_high_count (t : Task) (n : Nat) :
    (flip_status t n).high_count = t.high_count := by
  unfold flip_status
  split
  · rfl
  · split
    · rfl
    · rfl

theorem flip_status_low_count (t : Task) (n : Nat) :
    (flip_status t n).low_count = t.low_count := by
  unfold flip_status
  split
  · rfl
  · split
    · rfl
    · rfl

theorem classifier_step_high_count (t : Task) (c : ℚ) (n : Nat) :
    (classifier_step t c n).high_count = if 5 < c then t.high_count + 1 else 0 := by
  rw [classifier_step, flip_status_high_count, bump_streaks_high_count]

theorem classifier_step_low_count (t : Task) (c : ℚ) (n : Nat) :
    (classifier_step t c n).low_count = if 5 < c then 0 else t.low_count + 1 := by
  rw [classifier_step, flip_status_low_count, bump_streaks_low_count]

/-- Any status change made by one classifier tick: either the status is kept,
or it moves to RUNNING on a strictly-high sample extending a nonempty high
streak, or it moves to IDLE on an at-or-below sample extending a nonempty low
streak. -/
theorem classifier_step_status_cases (t : Task) (c : ℚ) (n : Nat) :
    (classifier_step t c n).status = t.status
  ∨ ((classifier_step t c n).status = "RUNNING" ∧ 5 < c ∧ 1 ≤ t.high_count)
  ∨ ((classifier_step t c n).status = "IDLE" ∧ ¬ 5 < c ∧ 1 ≤ t.low_count) := by
  by_cases h5 : 5 < c
  · by_cases h1 : 2 ≤ (bump_streaks t c).high_count ∧ (bump_streaks t c).status ≠ "RUNNING"
    · right; left
      have hcount : 1 ≤ t.high_count := by
        have := h1.1
        rw [bump_streaks_high_count, if_pos h5] at this
        omega
      refine ⟨?_, h5, hcount⟩
      rw [classifier_step, flip_status, if_pos h1]
    · left
      have h2 : ¬ (2 ≤ (bump_streaks t c).low_count ∧ (bump_streaks t c).status ≠ "IDLE") := by
        rw [bump_streaks_low_count, if_pos h5]
        intro hc
        exact absurd hc.1 (by omega)
      rw [classifier_step, flip_status, if_neg h1, if_neg h2, bump_streaks_status]
  · by_cases h2 : 2 ≤ (bump_streaks t c).low_count ∧ (bump_streaks t c).status ≠ "IDLE"
    · right; right
      have hcount : 1 ≤ t.low_count := by
        have := h2.1
        rw [bump_streaks_low_count, if_neg h5] at this
        omega
      refine ⟨?_, h5, hcount⟩
      have h1 : ¬ (2 ≤ (bump_streaks t c).high_count ∧ (bump_streaks t c).status ≠ "RUNNING") := by
        rw [bump_streaks_high_count, if_neg h5]
        intro hc
        exact absurd hc.1 (by omega)
      rw [classifier_step, flip_status, if_neg h1, if_pos h2]
    · left
      have h1 : ¬ (2 ≤ (bump_streaks t c).high_count ∧ (bump_streaks t c).status ≠ "RUNNING") := by
        rw [bump_streaks_high_count, if_neg h5]
        intro hc
        exact absurd hc.1 (by omega)
      rw [classifier_step, flip_status, if_neg h1, if_neg h2, bump_streaks_status]

theorem classifier_run_nil (t : Task) (n : Nat) : classifier_run t [] n = t := rfl

theorem classifier_run_cons (t : Task) (c : ℚ) (l : List ℚ) (n : Nat) :
    classifier_run t (c :: l) n = classifier_run (classifier_step t c n) l n := rfl

/-- A live high streak after a run means the run's final sample was strictly
above threshold (or no sample was processed and the streak was inherited). -/
theorem classifier_run_high_streak (now : Nat) :
    ∀ (l : List ℚ) (t : Task), 1 ≤ (classifier_run t l now).high_count →
      (l = [] ∧ 1 ≤ t.high_count) ∨ ∃ l1 a, l = l1 ++ [a] ∧ 5 < a := by
  intro l
  induction l with
  | nil => exact fun t h => Or.inl ⟨rfl, h⟩
  | cons c cs ih =>
    intro t h
    rw [classifier_run_cons] at h
    rcases ih (classifier_step t c now) h with ⟨hnil, hh⟩ | ⟨l1, a, heq, ha⟩
    · subst hnil
      right
      refine ⟨[], c, rfl, ?_⟩
      by_contra h5
      rw [classifier_step_high_count, if_neg h5] at hh
      omega
    · right
      exact ⟨c :: l1, a, by rw [heq, List.cons_append], ha⟩

/-- A live low streak after a run means the run's final sample was at or
below threshold (or no sample was processed and the streak was inherited). -/
theorem classifier_run_low_streak (now : Nat) :
    ∀ (l : List ℚ) (t : Task), 1 ≤ (classifier_run t l now).low_count →
      (l = [] ∧ 1 ≤ t.low_count) ∨ ∃ l1 a, l = l1 ++ [a] ∧ ¬ 5 < a := by
  intro l
  induction l with
  | nil => exact fun t h => Or.inl ⟨rfl, h⟩
  | cons c cs ih =>
    intro t h
    rw [classifier_run_cons] at h
    rcases ih (classifier_step t c now) h with ⟨hnil, hh⟩ | ⟨l1, a, heq, ha⟩
    · subst hnil
      right
      refine ⟨[], c, rfl, ?_⟩
      intro h5
      rw [classifier_step_low_count, if_pos h5] at hh
      omega
    · right
      exact ⟨c :: l1, a, by rw [heq, List.cons_append], ha⟩

/-- A tick that moves a task to RUNNING did so on a strictly-high sample with
a high streak already under way. -/
theorem classifier_step_to_running (t : Task) (c : ℚ) (n : Nat)
    (hs : (classifier_step t c n).status = "RUNNING") (hne : t.status ≠ "RUNNING") :
    5 < c ∧ 1 ≤ t.high_count := by
  rcases classifier_step_status_cases t c n with h | ⟨_, h5, hc⟩ | ⟨hi, _, _⟩
  · exact absurd (h.symm.trans hs) hne
  · exact ⟨h5, hc⟩
  · exact absurd (hi.symm.trans hs) (by decide)

/-- A tick that moves a task to IDLE did so on an at-or-below sample with a
low streak already under way. -/
theorem classifier_step_to_idle (t : Task) (c : ℚ) (n : Nat)
    (hs : (classifier_step t c n).status = "IDLE") (hne : t.status ≠ "IDLE") :
    ¬ 5 < c ∧ 1 ≤ t.low_count := by
  rcases classifier_step_status_cases t c n with h | ⟨hr, _, _⟩ | ⟨_, h5, hc⟩
  · exact absurd (h.symm.trans hs) hne
  · exact absurd (hr.symm.trans hs) (by decide)
  · exact ⟨h5, hc⟩

/-- One classifier tick either leaves work_started_at alone or stamps it while
moving a non-RUNNING task to RUNNING. -/
theorem classifier_step_work_started_at (t : Task) (c : ℚ) (n : Nat) :
    (classifier_step t c n).work_started_at = t.work_started_at
  ∨ ((classifier_step t c n).work_started_at = some n ∧ t.status ≠ "RUNNING"
      ∧ (classifier_step t c n).status = "RUNNING") := by
  rw [classifier_step]
  unfold flip_status
  split
  · next h =>
      right
      refine ⟨rfl, ?_, rfl⟩
      have := h.2
      rwa [bump_streaks_status] at this
  · split
    · left
      exact bump_streaks_work_started_at t c
    · left
      exact bump_streaks_work_started_at t c

mutual

theorem kill_process_tree_length (fail : Nat → Bool) :
    ∀ t : PTree, (kill_process_tree fail t).length = PTree.size t
  | .node pid cs => by
      simp [kill_process_tree, PTree.size, kill_children_length fail cs,
        Nat.add_comm]

theorem kill_children_length (fail : Nat → Bool) :
    ∀ cs : List PTree, (kill_children fail cs).length = PTree.sizeList cs
  | [] => by simp [kill_children, PTree.sizeList]
  | c :: cs => by
      simp [kill_children, PTree.sizeList, kill_process_tree_length fail c,
        kill_children_length fail cs]

end

mutual

theorem kill_process_tree_perm (fail : Nat → Bool) :
    ∀ t : PTree, ((kill_process_tree fail t).map Prod.fst).Perm (PTree.pids t)
  | .node p cs => by
      simp only [kill_process_tree, PTree.pids, List.map_append, List.map_cons,
        List.map_nil]
      exact (List.perm_append_singleton p _).trans
        ((kill_children_perm fail cs).cons p)

theorem kill_children_perm (fail : Nat → Bool) :
    ∀ cs : List PTree, ((kill_children fail cs).map Prod.fst).Perm (PTree.pidsList cs)
  | [] => by simp [kill_children, PTree.pidsList]
  | c :: cs => by
      simp only [kill_children, PTree.pidsList, List.map_append]
      exact (kill_process_tree_perm fail c).append (kill_children_perm fail cs)

end

mutual

theorem kill_process_tree_fst_indep (fail fail2 : Nat → Bool) :
    ∀ t : PTree,
      (kill_process_tree fail t).map Prod.fst = (kill_process_tree fail2 t).map Prod.fst
  | .node p cs => by
      simp [kill_process_tree, kill_children_fst_indep fail fail2 cs]

theorem kill_children_fst_indep (fail fail2 : Nat → Bool) :
    ∀ cs : List PTree,
      (kill_children fail cs).map Prod.fst = (kill_children fail2 cs).map Prod.fst
  | [] => by simp [kill_children]
  | c :: cs => by
      simp [kill_children, kill_process_tree_fst_indep fail fail2 c,
        kill_children_fst_indep fail fail2 cs]

end

theorem kill_children_eq_flatten (fail : Nat → Bool) :
    ∀ cs : List PTree, kill_children fail cs = (cs.map (kill_process_tree fail)).flatten
  | [] => by simp [kill_children]
  | c :: cs => by simp [kill_children, kill_children_eq_flatten fail cs]

theorem kill_process_tree_getLast (fail : Nat → Bool) (t : PTree) :
    ((kill_process_tree fail t).map Prod.fst).getLast? = some t.rootPid := by
  cases t with
  | node pid cs =>
      simp [kill_process_tree, PTree.rootPid, List.getLast?_concat]

/-- Full effect of update_task on a present id: ok reply, and the stored
record has the request's status and exit_code, work_started_at stamped only
on a transition into RUNNING, finished_at stamped only for DONE or FAILED. -/
theorem update_task_found (st : BoardState) (tid : String) (t : Task)
    (body : TaskUpdate) (now : Nat) (h : lookupA st.tasks tid = some t) :
    (update_task st tid body now).2 = { ok := true, error := none }
  ∧ lookupA (update_task st tid body now).1.tasks tid = some
      { t with
          status := body.status,
          exit_code := body.exit_code,
          work_started_at :=
            if body.status = "RUNNING" ∧ t.status ≠ "RUNNING" then some now
            else t.work_started_at,
          finished_at :=
            if body.status = "DONE" ∨ body.status = "FAILED" then some now
            else t.finished_at } := by
  unfold update_task
  rw [h]
  refine ⟨rfl, ?_⟩
  simp only [lookupA_setA_self]
  by_cases hr : body.status = "RUNNING" ∧ t.status ≠ "RUNNING" <;>
    by_cases hd : body.status = "DONE" ∨ body.status = "FAILED" <;>
      simp [hr, hd]

/-- Effect of the kill path's registry mutation on a present id. -/
theorem kill_task_mark_found (st : BoardState) (tid : String) (t : Task)
    (now : Nat) (h : lookupA st.tasks tid = some t) :
    lookupA (kill_task_mark st tid now).tasks tid = some
      { t with
          status := "KILLED",
          finished_at := some now,
          exit_code := some (-15) } := by
  unfold kill_task_mark
  rw [h]
  exact lookupA_setA_self ..

/-- The record stored by create_task under the request id. -/
theorem create_task_sets (groupOf : String → String) (st : BoardState)
    (body : TaskCreate) (now : Nat) :
    lookupA (create_task groupOf st body now).tasks body.id = some
      { id := body.id, name := body.name, status := "IDLE",
        shell_pid := body.shell_pid, claude_pid := none, cwd := body.cwd,
        group :=
          (match body.cwd with
           | some c => if c.trim ≠ "" ∧ c.trim ≠ "/" then groupOf c else "General"
           | none => "General"),
        started_at := now, work_started_at := none, finished_at := none,
        exit_code := none, high_count := 0, low_count := 0,
        cpu := none } := by
  unfold create_task
  exact lookupA_setA_self ..

/-- When every per-process CPU query failed, the summed total is 0, exactly
as for an idle process tree. -/
theorem get_cpu_usage_all_none :
    ∀ samples : List (Option ℚ), (∀ s ∈ samples, s = none) →
      get_cpu_usage samples = 0
  | [], _ => rfl
  | s :: rest, h => by
      have hs : s = none := h s (List.mem_cons_self s rest)
      subst hs
      have hstep : get_cpu_usage (none :: rest) = get_cpu_usage rest := rfl
      rw [hstep]
      exact get_cpu_usage_all_none rest (fun x hx => h x (List.mem_cons_of_mem _ hx))

/-- A finished session, as the monitor loop leaves one after the shell dies:
DONE with exit code 0 and a finish stamp. -/
def doneTask : Task :=
  { id := "s1", name := "demo", status := "DONE", shell_pid := some 41,
    claude_pid := some 42, cwd := none, group := "General", started_at := 0,
    work_started_at := some 1, finished_at := some 5, exit_code := some 0,
    high_count := 0, low_count := 0, cpu := some 0 }

/-- A registry holding only doneTask. -/
def doneBoard : BoardState :=
  { tasks := [("s1", doneTask)], total_sessions := 1, status_flash := [("s1", 5)] }

/-- A freshly registered idle session. -/
def idleTask : Task :=
  { id := "s2", name := "demo2", status := "IDLE", shell_pid := some 51,
    claude_pid := none, cwd := none, group := "General", started_at := 0,
    work_started_at := none, finished_at := none, exit_code := none,
    high_count := 0, low_count := 0, cpu := none }

/-- A registry holding only idleTask. -/
def idleBoard : BoardState :=
  { tasks := [("s2", idleTask)], total_sessions := 1, status_flash := [("s2", 0)] }

/-- A working session that has just seen one at-or-below-threshold sample. -/
def runningTask : Task :=
  { id := "s3", name := "demo3", status := "RUNNING", shell_pid := some 61,
    claude_pid := some 62, cwd := none, group := "General", started_at := 0,
    work_started_at := some 1, finished_at := none, exit_code := none,
    high_count := 0, low_count := 1, cpu := some 2 }

/-- An idle session carrying a previously reported exit code. -/
def exitTask : Task :=
  { id := "s4", name := "demo4", status := "IDLE", shell_pid := some 71,
    claude_pid := none, cwd := none, group := "General", started_at := 0,
    work_started_at := none, finished_at := none, exit_code := some 3,
    high_count := 0, low_count := 0, cpu := none }

/-- A registry holding only exitTask. -/
def exitBoard : BoardState :=
  { tasks := [("s4", exitTask)], total_sessions := 1, status_flash := [("s4", 0)] }

/-- A registration request with no working directory. -/
def cbody : TaskCreate :=
  { id := "s1", name := "demo", shell_pid := some 41, cwd := none }

/-- C1 counterexample: update_task never consults the stored status, so a
session already DONE is moved to IDLE and its exit code is erased by a later
PATCH — terminal statuses are not sticky. -/
theorem update_task_terminal_overwritten_cex :
    doneTask.status = "DONE"
  ∧ (lookupA (update_task doneBoard "s1"
        { status := "IDLE", exit_code := none } 9).1.tasks "s1").map Task.status
      = some "IDLE"
  ∧ (lookupA (update_task doneBoard "s1"
        { status := "IDLE", exit_code := none } 9).1.tasks "s1").map Task.exit_code
      = some none := by decide

/-- C1 (amended): a later update_task on a terminal session overwrites status
and exit_code with the request's values; finished_at is re-stamped when the
new status is DONE or FAILED and kept unchanged otherwise. -/
theorem update_task_terminal_not_sticky (st : BoardState) (tid : String)
    (t : Task) (body : TaskUpdate) (now : Nat)
    (h : lookupA st.tasks tid = some t)
    (_hterm : t.status = "DONE" ∨ t.status = "FAILED" ∨ t.status = "KILLED") :
    ∃ t', lookupA (update_task st tid body now).1.tasks tid = some t'
      ∧ t'.status = body.status
      ∧ t'.exit_code = body.exit_code
      ∧ t'.finished_at =
          (if body.status = "DONE" ∨ body.status = "FAILED" then some now
           else t.finished_at) := by
  obtain ⟨-, hl⟩ := update_task_found st tid t body now h
  refine ⟨_, hl, rfl, rfl, rfl⟩

/-- C1 witness: the amended statement at the DONE session doneTask, updated
to IDLE at instant 9. -/
theorem update_task_terminal_not_sticky_witness :
    lookupA doneBoard.tasks "s1" = some doneTask
  ∧ (doneTask.status = "DONE" ∨ doneTask.status = "FAILED"
      ∨ doneTask.status = "KILLED")
  ∧ ∃ t', lookupA (update_task doneBoard "s1"
        { status := "IDLE", exit_code := none } 9).1.tasks "s1" = some t'
      ∧ t'.status = "IDLE"
      ∧ t'.exit_code = none
      ∧ t'.finished_at =
          (if ("IDLE" : String) = "DONE" ∨ ("IDLE" : String) = "FAILED" then some 9
           else doneTask.finished_at) :=
  ⟨by decide, by decide,
    update_task_terminal_not_sticky doneBoard "s1" doneTask
      { status := "IDLE", exit_code := none } 9 (by decide) (by decide)⟩

/-- C2 counterexample: a PATCH that sets status KILLED leaves finished_at
unset (line 195 of src/board.py stamps it only for DONE and FAILED), so a
session can sit in the terminal status KILLED with no finish stamp. -/
theorem update_task_killed_no_finished_at_cex :
    (lookupA (update_task idleBoard "s2"
        { status := "KILLED", exit_code := some (-15) } 7).1.tasks "s2").map Task.status
      = some "KILLED"
  ∧ (lookupA (update_task idleBoard "s2"
        { status := "KILLED", exit_code := some (-15) } 7).1.tasks "s2").map Task.finished_at
      = some none := by decide

/-- C2 (amended): update_task stamps finished_at exactly for the new statuses
DONE and FAILED; an update into KILLED keeps the previous finished_at, and
only the interactive kill path stamps finished_at when it marks KILLED. -/
theorem finished_at_update_rules (st : BoardState) (tid : String) (t : Task)
    (body : TaskUpdate) (now : Nat) (h : lookupA st.tasks tid = some t) :
    ((body.status = "DONE" ∨ body.status = "FAILED") →
      (lookupA (update_task st tid body now).1.tasks tid).map Task.finished_at
        = some (some now))
  ∧ (body.status = "KILLED" →
      (lookupA (update_task st tid body now).1.tasks tid).map Task.finished_at
        = some t.finished_at)
  ∧ (lookupA (kill_task_mark st tid now).tasks tid).map Task.finished_at
      = some (some now) := by
  obtain ⟨-, hl⟩ := update_task_found st tid t body now h
  refine ⟨fun hd => ?_, fun hk => ?_, ?_⟩
  · rw [hl]
    simp [if_pos hd]
  · rw [hl]
    have hne : ¬ (body.status = "DONE" ∨ body.status = "FAILED") := by
      rw [hk]; decide
    simp [if_neg hne]
  · rw [kill_task_mark_found st tid t now h]
    rfl

/-- C2 witness: the amended statement at the idle session idleTask, updated
to DONE at instant 7. -/
theorem finished_at_update_rules_witness :
    lookupA idleBoard.tasks "s2" = some idleTask
  ∧ (((("DONE" : String) = "DONE" ∨ ("DONE" : String) = "FAILED") →
      (lookupA (update_task idleBoard "s2"
          { status := "DONE", exit_code := some 0 } 7).1.tasks "s2").map Task.finished_at
        = some (some 7))
    ∧ (("DONE" : String) = "KILLED" →
        (lookupA (update_task idleBoard "s2"
            { status := "DONE", exit_code := some 0 } 7).1.tasks "s2").map Task.finished_at
          = some idleTask.finished_at)
    ∧ (lookupA (kill_task_mark idleBoard "s2" 7).tasks "s2").map Task.finished_at
        = some (some 7)) :=
  ⟨by decide,
    finished_at_update_rules idleBoard "s2" idleTask
      { status := "DONE", exit_code := some 0 } 7 (by decide)⟩

/-- C9 (confirmed): an update with an unknown id returns the not-found reply
and the whole shared state — tasks, counter, flash stamps — is untouched. -/
theorem update_task_unknown_id_noop (st : BoardState) (tid : String)
    (body : TaskUpdate) (now : Nat) (h : lookupA st.tasks tid = none) :
    update_task st tid body now = (st, { ok := false, error := some "not found" }) := by
  unfold update_task
  rw [h]

/-- C9 witness: updating the unknown id "unknown" on the empty registry. -/
theorem update_task_unknown_id_noop_witness :
    lookupA emptyBoard.tasks "unknown" = none
  ∧ update_task emptyBoard "unknown" { status := "RUNNING", exit_code := none } 0
      = (emptyBoard, { ok := false, error := some "not found" }) :=
  ⟨by decide,
    update_task_unknown_id_noop emptyBoard "unknown"
      { status := "RUNNING", exit_code := none } 0 (by decide)⟩

/-- C10 (confirmed): every successful update overwrites exit_code with the
request's value — including none — and status with the request's status, even
when the status is unchanged. -/
theorem update_task_overwrites_exit_code (st : BoardState) (tid : String)
    (t : Task) (body : TaskUpdate) (now : Nat)
    (h : lookupA st.tasks tid = some t) :
    (update_task st tid body now).2 = { ok := true, error := none }
  ∧ (lookupA (update_task st tid body now).1.tasks tid).map Task.exit_code
      = some body.exit_code
  ∧ (lookupA (update_task st tid body now).1.tasks tid).map Task.status
      = some body.status := by
  obtain ⟨hok, hl⟩ := update_task_found st tid t body now h
  exact ⟨hok, by rw [hl]; rfl, by rw [hl]; rfl⟩

/-- C10 witness: re-sending the current status IDLE with no exit code clears
the previously stored exit code 3 of exitTask. -/
theorem update_task_overwrites_exit_code_witness :
    lookupA exitBoard.tasks "s4" = some exitTask
  ∧ ((update_task exitBoard "s4" { status := "IDLE", exit_code := none } 4).2
        = { ok := true, error := none }
    ∧ (lookupA (update_task exitBoard "s4"
          { status := "IDLE", exit_code := none } 4).1.tasks "s4").map Task.exit_code
        = some none
    ∧ (lookupA (update_task exitBoard "s4"
          { status := "IDLE", exit_code := none } 4).1.tasks "s4").map Task.status
        = some "IDLE") :=
  ⟨by decide,
    update_task_overwrites_exit_code exitBoard "s4" exitTask
      { status := "IDLE", exit_code := none } 4 (by decide)⟩

/-- C3 (confirmed): for any session whose streak counters start at 0 (as
created) and any sample sequence, a tick that flips IDLE to RUNNING happened
on a strictly-above-threshold sample whose immediate predecessor was also
strictly above threshold, and a tick that flips RUNNING to IDLE happened on
an at-or-below sample whose immediate predecessor was also at or below; in
particular no flip ever follows fewer than 2 consecutive same-side samples,
and a single anomalous sample only resets the opposite streak (last two
conjuncts), so it can never cause a transition by itself. -/
theorem classifier_two_sample_hysteresis (now : Nat) (t0 : Task)
    (h1 : t0.high_count = 0) (h2 : t0.low_count = 0) (l : List ℚ) (b : ℚ) :
    (((classifier_run t0 l now).status = "IDLE" ∧
        (classifier_step (classifier_run t0 l now) b now).status = "RUNNING") →
      5 < b ∧ ∃ l1 a, l = l1 ++ [a] ∧ 5 < a)
  ∧ (((classifier_run t0 l now).status = "RUNNING" ∧
        (classifier_step (classifier_run t0 l now) b now).status = "IDLE") →
      ¬ 5 < b ∧ ∃ l1 a, l = l1 ++ [a] ∧ ¬ 5 < a)
  ∧ (∀ (s : Task) (c : ℚ), ¬ 5 < c → (classifier_step s c now).high_count = 0)
  ∧ (∀ (s : Task) (c : ℚ), 5 < c → (classifier_step s c now).low_count = 0) := by
  refine ⟨fun hup => ?_, fun hdown => ?_, fun s c hc => ?_, fun s c hc => ?_⟩
  · have hne : (classifier_run t0 l now).status ≠ "RUNNING" := by
      rw [hup.1]; decide
    obtain ⟨hb, hstreak⟩ := classifier_step_to_running _ b now hup.2 hne
    refine ⟨hb, ?_⟩
    rcases classifier_run_high_streak now l t0 hstreak with ⟨-, habs⟩ | hdec
    · rw [h1] at habs
      omega
    · exact hdec
  · have hne : (classifier_run t0 l now).status ≠ "IDLE" := by
      rw [hdown.1]; decide
    obtain ⟨hb, hstreak⟩ := classifier_step_to_idle _ b now hdown.2 hne
    refine ⟨hb, ?_⟩
    rcases classifier_run_low_streak now l t0 hstreak with ⟨-, habs⟩ | hdec
    · rw [h2] at habs
      omega
    · exact hdec
  · rw [classifier_step_high_count, if_neg hc]
  · rw [classifier_step_low_count, if_pos hc]

/-- C3 witness: the hysteresis statement at the fresh session idleTask and
the sample history [10] followed by the sample 10, which is exactly the
2-sample IDLE-to-RUNNING flip. -/
theorem classifier_two_sample_hysteresis_witness :
    idleTask.high_count = 0
  ∧ idleTask.low_count = 0
  ∧ ((((classifier_run idleTask [10] 4).status = "IDLE" ∧
        (classifier_step (classifier_run idleTask [10] 4) 10 4).status = "RUNNING") →
      5 < (10 : ℚ) ∧ ∃ l1 a, [(10 : ℚ)] = l1 ++ [a] ∧ 5 < a)
    ∧ (((classifier_run idleTask [10] 4).status = "RUNNING" ∧
        (classifier_step (classifier_run idleTask [10] 4) 10 4).status = "IDLE") →
      ¬ 5 < (10 : ℚ) ∧ ∃ l1 a, [(10 : ℚ)] = l1 ++ [a] ∧ ¬ 5 < a)
    ∧ (∀ (s : Task) (c : ℚ), ¬ 5 < c → (classifier_step s c 4).high_count = 0)
    ∧ (∀ (s : Task) (c : ℚ), 5 < c → (classifier_step s c 4).low_count = 0)) :=
  ⟨rfl, rfl, classifier_two_sample_hysteresis 4 idleTask rfl rfl [10] 10⟩

/-- C4 counterexample: a tick on which every per-process CPU query failed is
fed to the classifier as the total 0, so the low streak of the RUNNING
session runningTask grows from 1 to 2 and the session is flipped to IDLE —
the errors are treated as a 0% sample, not as no information. -/
theorem cpu_query_errors_change_state_cex :
    runningTask.status = "RUNNING"
  ∧ runningTask.low_count = 1
  ∧ (classifier_step runningTask (get_cpu_usage [none, none]) 3).low_count = 2
  ∧ (classifier_step runningTask (get_cpu_usage [none, none]) 3).status = "IDLE" := by
  decide

/-- C4 (amended): when every per-process query of a tick fails, get_cpu_usage
returns 0 and the tick behaves exactly like a genuine 0% sample: the high
streak is reset, the low streak is incremented, and the status moves as the
hysteresis dictates; the loop itself never crashes (the embedded functions
are total). -/
theorem cpu_query_errors_behave_as_zero_sample (samples : List (Option ℚ))
    (h : ∀ s ∈ samples, s = none) (t : Task) (now : Nat) :
    get_cpu_usage samples = 0
  ∧ classifier_step t (get_cpu_usage samples) now = classifier_step t 0 now
  ∧ (classifier_step t (get_cpu_usage samples) now).high_count = 0
  ∧ (classifier_step t (get_cpu_usage samples) now).low_count = t.low_count + 1 := by
  have h0 : get_cpu_usage samples = 0 := get_cpu_usage_all_none samples h
  have h5 : ¬ (5 : ℚ) < 0 := by decide
  refine ⟨h0, by rw [h0], ?_, ?_⟩
  · rw [h0, classifier_step_high_count, if_neg h5]
  · rw [h0, classifier_step_low_count, if_neg h5]

/-- C4 witness: the amended statement at a tick whose single CPU query
failed, applied to the idle session idleTask. -/
theorem cpu_query_errors_behave_as_zero_sample_witness :
    (∀ s ∈ [(none : Option ℚ)], s = none)
  ∧ (get_cpu_usage [(none : Option ℚ)] = 0
    ∧ classifier_step idleTask (get_cpu_usage [(none : Option ℚ)]) 6
        = classifier_step idleTask 0 6
    ∧ (classifier_step idleTask (get_cpu_usage [(none : Option ℚ)]) 6).high_count = 0
    ∧ (classifier_step idleTask (get_cpu_usage [(none : Option ℚ)]) 6).low_count
        = idleTask.low_count + 1) :=
  ⟨by decide,
    cpu_query_errors_behave_as_zero_sample [(none : Option ℚ)] (by decide) idleTask 6⟩

/-- C5 counterexample: a permission-denied outcome of the no-op signal means
the process exists, yet pid_alive reports false, because the except clause
catches OSError and PermissionError is an OSError. -/
theorem pid_alive_permission_denied_cex :
    pid_alive SignalCheck.permissionDenied = false := rfl

/-- C5 (amended): pid_alive returns true exactly when the no-op signal
raises no error at all; every failure of the check — the process being gone
and the permission being denied alike — yields false, so false does not
imply the process is absent. -/
theorem pid_alive_true_iff_signal_ok (r : SignalCheck) :
    pid_alive r = true ↔ r = SignalCheck.ok := by
  cases r <;> simp [pid_alive]

/-- C6 (confirmed): on a process with N descendants, kill_process_tree
records a SIGTERM attempt for every one of the N+1 processes of the tree
(the trace is a permutation of the tree's pids and has length size = N+1),
processes the children in order with each child's whole subtree as a
contiguous block followed by that child's own pid, signals the root last,
and the sequence of attempted pids is unaffected by which attempts fail —
the try/except swallows every failure and nothing is surfaced to the caller
(the embedded function is total and always returns the full trace). -/
theorem kill_process_tree_postorder (fail fail2 : Nat → Bool) (pid : Nat)
    (cs : List PTree) :
    kill_process_tree fail (PTree.node pid cs)
      = (cs.map (kill_process_tree fail)).flatten ++ [(pid, fail pid)]
  ∧ (kill_process_tree fail (PTree.node pid cs)).length
      = PTree.size (PTree.node pid cs)
  ∧ ((kill_process_tree fail (PTree.node pid cs)).map Prod.fst).Perm
      (PTree.pids (PTree.node pid cs))
  ∧ (∀ c ∈ cs, ((kill_process_tree fail c).map Prod.fst).getLast? = some c.rootPid)
  ∧ (kill_process_tree fail (PTree.node pid cs)).map Prod.fst
      = (kill_process_tree fail2 (PTree.node pid cs)).map Prod.fst := by
  refine ⟨?_, kill_process_tree_length fail _, kill_process_tree_perm fail _,
    fun c _ => kill_process_tree_getLast fail c,
    kill_process_tree_fst_indep fail fail2 _⟩
  rw [kill_process_tree, kill_children_eq_flatten]

/-- C7 counterexample: work_started_at of session "s1" is some 1 after its
transition into RUNNING, and is reset to none when the same id is registered
again — POST /task overwrites the whole record, clearing the field. -/
theorem work_started_at_cleared_by_reregister_cex :
    (lookupA ((update_task (create_task (fun s => s) emptyBoard cbody 0) "s1"
        { status := "RUNNING", exit_code := none } 1).1).tasks "s1").map
          Task.work_started_at
      = some (some 1)
  ∧ (lookupA (create_task (fun s => s)
        (update_task (create_task (fun s => s) emptyBoard cbody 0) "s1"
          { status := "RUNNING", exit_code := none } 1).1 cbody 2).tasks "s1").map
            Task.work_started_at
      = some none := by decide

/-- C7 (amended): work_started_at is stamped to the current instant exactly
on a transition into RUNNING from a non-RUNNING status, both by update_task
and by a classifier tick; update_task otherwise preserves it, a classifier
tick never clears it, and the kill path preserves it — but re-registering the
same id through create_task resets it to unset. -/
theorem work_started_at_lifecycle (st : BoardState) (tid : String) (t : Task)
    (body : TaskUpdate) (now : Nat) (c : ℚ)
    (h : lookupA st.tasks tid = some t) :
    ((lookupA (update_task st tid body now).1.tasks tid).map Task.work_started_at
        = some (if body.status = "RUNNING" ∧ t.status ≠ "RUNNING" then some now
                else t.work_started_at))
  ∧ ((classifier_step t c now).work_started_at = t.work_started_at
      ∨ ((classifier_step t c now).work_started_at = some now
          ∧ t.status ≠ "RUNNING" ∧ (classifier_step t c now).status = "RUNNING"))
  ∧ ((lookupA (kill_task_mark st tid now).tasks tid).map Task.work_started_at
        = some t.work_started_at)
  ∧ (∀ (groupOf : String → String) (cb : TaskCreate), cb.id = tid →
      (lookupA (create_task groupOf st cb now).tasks tid).map Task.work_started_at
        = some none) := by
  obtain ⟨-, hl⟩ := update_task_found st tid t body now h
  refine ⟨by rw [hl]; rfl, classifier_step_work_started_at t c now,
    by rw [kill_task_mark_found st tid t now h]; rfl, fun groupOf cb hid => ?_⟩
  rw [← hid, create_task_sets groupOf st cb now]
  rfl

/-- C7 witness: the amended statement at the idle session idleTask, updated
to RUNNING at instant 4 with a 10% sample. -/
theorem work_started_at_lifecycle_witness :
    lookupA idleBoard.tasks "s2" = some idleTask
  ∧ (((lookupA (update_task idleBoard "s2"
          { status := "RUNNING", exit_code := none } 4).1.tasks "s2").map
            Task.work_started_at
        = some (if ("RUNNING" : String) = "RUNNING" ∧ idleTask.status ≠ "RUNNING"
                then some 4 else idleTask.work_started_at))
    ∧ ((classifier_step idleTask 10 4).work_started_at = idleTask.work_started_at
        ∨ ((classifier_step idleTask 10 4).work_started_at = some 4
            ∧ idleTask.status ≠ "RUNNING"
            ∧ (classifier_step idleTask 10 4).status = "RUNNING"))
    ∧ ((lookupA (kill_task_mark idleBoard "s2" 4).tasks "s2").map
          Task.work_started_at = some idleTask.work_started_at)
    ∧ (∀ (groupOf : String → String) (cb : TaskCreate), cb.id = "s2" →
        (lookupA (create_task groupOf idleBoard cb 4).tasks "s2").map
            Task.work_started_at = some none)) :=
  ⟨by decide,
    work_started_at_lifecycle idleBoard "s2" idleTask
      { status := "RUNNING", exit_code := none } 4 10 (by decide)⟩

/-- C8 (confirmed): starting from a duplicate-free list of at most
RECENT_DIRS_MAX entries, one track_directory call keeps the list
duplicate-free and within the size bound, puts the (normalized) tracked path
at the front when the input is non-blank, and a second call with the same
path is a no-op — promotion moves an existing entry instead of duplicating
it. -/
theorem track_directory_mru_invariants (norm : String → String) (cwd : String)
    (dirs : List String) (h1 : dirs.Nodup) (h2 : dirs.length ≤ RECENT_DIRS_MAX) :
    (track_directory norm cwd dirs).Nodup
  ∧ (track_directory norm cwd dirs).length ≤ RECENT_DIRS_MAX
  ∧ track_directory norm cwd (track_directory norm cwd dirs)
      = track_directory norm cwd dirs
  ∧ (cwd.trim ≠ "" →
      (track_directory norm cwd dirs).head? = some (norm cwd)) := by
  by_cases hb : cwd.trim = ""
  · refine ⟨?_, ?_, ?_, fun hne => absurd hb hne⟩ <;>
      simp [track_directory, hb, h1, h2]
  · have hcons : ((norm cwd) :: dirs.erase (norm cwd)).Nodup := by
      rw [List.nodup_cons]
      exact ⟨h1.not_mem_erase, h1.erase (norm cwd)⟩
    have htrack : track_directory norm cwd dirs
        = (norm cwd) :: (dirs.erase (norm cwd)).take 4 := by
      rw [track_directory, if_neg hb]
      exact List.take_succ_cons
    refine ⟨?_, ?_, ?_, fun _ => ?_⟩
    · rw [track_directory, if_neg hb]
      exact hcons.sublist (List.take_sublist RECENT_DIRS_MAX _)
    · rw [track_directory, if_neg hb]
      exact List.length_take_le _ _
    · rw [htrack]
      have h2nd : track_directory norm cwd
          ((norm cwd) :: (dirs.erase (norm cwd)).take 4)
          = (norm cwd) :: (((dirs.erase (norm cwd)).take 4).take 4) := by
        rw [track_directory, if_neg hb, List.erase_cons_head]
        exact List.take_succ_cons
      rw [h2nd, List.take_take]
      rfl
    · rw [htrack]
      rfl

/-- C8 witness: the invariants at the list of two directories with the
second one re-tracked, under the identity normalization. -/
theorem track_directory_mru_invariants_witness :
    (["/home/u/b", "/home/u/a"] : List String).Nodup
  ∧ (["/home/u/b", "/home/u/a"] : List String).length ≤ RECENT_DIRS_MAX
  ∧ ((track_directory (fun s => s) "/home/u/a" ["/home/u/b", "/home/u/a"]).Nodup
    ∧ (track_directory (fun s => s) "/home/u/a"
        ["/home/u/b", "/home/u/a"]).length ≤ RECENT_DIRS_MAX
    ∧ track_directory (fun s => s) "/home/u/a"
        (track_directory (fun s => s) "/home/u/a" ["/home/u/b", "/home/u/a"])
        = track_directory (fun s => s) "/home/u/a" ["/home/u/b", "/home/u/a"]
    ∧ (("/home/u/a" : String).trim ≠ "" →
        (track_directory (fun s => s) "/home/u/a"
          ["/home/u/b", "/home/u/a"]).head? = some "/home/u/a")) :=
  ⟨by decide, by decide,
    track_directory_mru_invariants (fun s => s) "/home/u/a"
      ["/home/u/b", "/home/u/a"] (by decide) (by decide)⟩

end Board
